import Mathlib

/-!
Verification of the cloud pipeline orchestrator
(`paperspace/pipeline_cloud.py` and `paperspace/utils/cloud_storage.py`).

The Python source is shallowly embedded below:
* the filesystem directories the storage layer manipulates become lists of
  `MFile` records (name, modification time, content);
* `list.sort(key=lambda x: x.stat().st_mtime, reverse=True)` becomes a stable
  insertion sort under the relation "has greater-or-equal mtime" (CPython's
  sort is stable; with `reverse=True` ties keep their original order);
* subprocess execution becomes a function of an explicit behaviour record
  (captured output lines, timing, exit code), with Python exceptions embedded
  as an `Except` layer that the translated `try`/`except` blocks eliminate;
* the wall clock (`datetime.utcnow()` / `st_mtime`) becomes explicit
  timestamp parameters threaded through the operations.
-/

namespace Pipeline

/-! ### String helpers

`strContains pat s` embeds Python's `pat in s`; `rstrip` embeds
`str.rstrip()`; `globMatch pre suf name` embeds matching a file name against
a glob pattern of the shape `PRE*SUF` (as used with patterns such as
`"FINAL_REPORT_{slug}_*.md"`): the name must start with `PRE`, end with
`SUF`, and be long enough that the two do not overlap. -/

def strContains (pat s : String) : Bool :=
  decide (pat.data <:+: s.data)

def rstrip (s : String) : String :=
  ⟨(s.data.reverse.dropWhile Char.isWhitespace).reverse⟩

def globMatch (pre suf name : String) : Bool :=
  decide (pre.data <+: name.data) && decide (suf.data <:+ name.data) &&
    decide (pre.length + suf.length ≤ name.length)

/-! ### Filesystem model -/

/-- File contents: ordinary text files, or the JSON object written by
`CloudStorage.save_vector_store_id` (`json.dump` / `json.load` round-trip a
record, so the object is embedded structurally). -/
inductive FContent where
  | text (s : String)
  | vjson (vector_store_id company_name company_slug timestamp : String)
deriving DecidableEq, Repr

/-- One file of a directory: name, modification time, content. -/
structure MFile where
  name : String
  mtime : Nat
  content : FContent
deriving DecidableEq, Repr

/-- Embedding of `open(path, "w")` followed by a full write: truncates (replaces) an
existing file of the same name, otherwise creates a new directory entry. -/
def writeFile (dir : List MFile) (name : String) (mtime : Nat)
    (content : FContent) : List MFile :=
  dir.filter (fun f => f.name != name) ++ [⟨name, mtime, content⟩]

/-- The comparison used by `xs.sort(key=lambda x: x.stat().st_mtime,
reverse=True)`: `a` may come before `b` when `a`'s mtime is at least `b`'s. -/
def mtimeGe (a b : MFile) : Prop := b.mtime ≤ a.mtime

instance : DecidableRel mtimeGe := fun a b => Nat.decLe b.mtime a.mtime

instance : IsTotal MFile mtimeGe := ⟨fun a b => Nat.le_total b.mtime a.mtime⟩

instance : IsTrans MFile mtimeGe :=
  ⟨fun _ _ _ h h' => Nat.le_trans h' h⟩

/-- Stable descending-by-mtime sort: the embedding of
`sort(key=lambda x: x.stat().st_mtime, reverse=True)` (CPython's stable sort;
ties keep list order, and the lists below are built in glob order). -/
def sortByMtimeDesc (l : List MFile) : List MFile :=
  l.insertionSort mtimeGe

/-! ### CloudStorage (`paperspace/utils/cloud_storage.py`) -/

/-- Name `FINAL_REPORT_{slug}_{timestamp}.md` written by `save_final_report`. -/
def mdName (slug ts : String) : String :=
  "FINAL_REPORT_" ++ slug ++ "_" ++ ts ++ ".md"

/-- Name `FINAL_REPORT_{slug}_{timestamp}.ready` written by `save_final_report`. -/
def readyName (slug ts : String) : String :=
  "FINAL_REPORT_" ++ slug ++ "_" ++ ts ++ ".ready"

/-- Name `vector_{timestamp}.json` written by `save_vector_store_id`. -/
def vecName (ts : String) : String :=
  "vector_" ++ ts ++ ".json"

/-- One call to `CloudStorage.save_final_report(content)`: `ts` is the
formatted `datetime.utcnow()` timestamp of the call and `mtime` the resulting
file modification time (both come from the same instant).  Writes the
timestamped artifact, then the `.ready` signal file containing
`str(final_file) + "\n"`, and returns the new directory together with the
artifact path (`dirPath` is `str(self.final_dir)`). -/
def save_final_report (slug ts : String) (mtime : Nat) (content : String)
    (dirPath : String) (dir : List MFile) : List MFile × String :=
  let fname := mdName slug ts
  let dir1 := writeFile dir fname mtime (.text content)
  let fullPath := dirPath ++ "/" ++ fname
  let dir2 := writeFile dir1 (readyName slug ts) mtime
    (.text (fullPath ++ "\n"))
  (dir2, fullPath)

/-- Model of `CloudStorage.get_latest_final_report`: glob
`FINAL_REPORT_{slug}_*.md`, sort by mtime descending, return the first
entry (or `None` when nothing matches). -/
def get_latest_final_report (slug : String) (dir : List MFile) :
    Option MFile :=
  (sortByMtimeDesc (dir.filter
    (fun f => globMatch ("FINAL_REPORT_" ++ slug ++ "_") ".md" f.name))).head?

/-- Model of `CloudStorage.save_vector_store_id`: writes
`vector_{timestamp}.json` holding the JSON object
`{"vector_store_id": ..., "company_name": ..., "company_slug": ...,
"timestamp": ...}`. -/
def save_vector_store_id (companyName slug vsId ts : String) (mtime : Nat)
    (dir : List MFile) : List MFile :=
  writeFile dir (vecName ts) mtime (.vjson vsId companyName slug ts)

/-- Model of `CloudStorage.get_latest_vector_store_id`: glob `vector_*.json`, take
the newest by mtime, `json.load` it and return `data.get("vector_store_id")`;
`None` when no file matches.  (A matching file that does not hold the JSON
object written by `save_vector_store_id` is modelled as yielding no id.) -/
def get_latest_vector_store_id (dir : List MFile) : Option String :=
  match (sortByMtimeDesc (dir.filter
      (fun f => globMatch "vector_" ".json" f.name))).head? with
  | none => none
  | some f =>
    match f.content with
    | .vjson vsId _ _ _ => some vsId
    | .text _ => none

/-- Model of `CloudStorage.get_latest_part_a_draft`: return the pointer file
`report_draft_latest_{slug}.md` when it exists, else fall back to the newest
`report_draft_{slug}_*.md` by mtime, else `None`. -/
def get_latest_part_a_draft (slug : String) (dir : List MFile) :
    Option MFile :=
  let pointer := "report_draft_latest_" ++ slug ++ ".md"
  match dir.find? (fun f => f.name == pointer) with
  | some f => some f
  | none =>
    (sortByMtimeDesc (dir.filter
      (fun f => globMatch ("report_draft_" ++ slug ++ "_") ".md" f.name))).head?

/-! ### ProcessRunner (`CloudPipeline.run_command`) -/

/-- The externally observable behaviour of one spawned child process:
the raw lines its merged stdout/stderr produces before the stream reaches
EOF, the wall-clock seconds until that EOF, the further wall-clock seconds
between EOF and process exit, and the exit code. -/
structure ProcBehavior where
  rawLines : List String
  eofTime : Nat
  exitDelay : Nat
  exitCode : Int
deriving DecidableEq, Repr

/-- Spawning either raises (`subprocess.Popen` or the read loop failing with
some exception, whose `str(e)` is `msg`) or yields a running process. -/
inductive SpawnOutcome where
  | launchFailure (msg : String)
  | runs (p : ProcBehavior)
deriving DecidableEq, Repr

/-- The Python exceptions that can escape the `try` block of
`run_command`. -/
inductive PyExn where
  | timeoutExpired
  | other (msg : String)
deriving DecidableEq, Repr

/-- Total wall-clock runtime of a child process. -/
def totalRuntime (p : ProcBehavior) : Nat := p.eofTime + p.exitDelay

/-- The output `run_command` accumulates: each line is `rstrip`ped, empty
lines are dropped, and the rest are joined with `"\n"`. -/
def capturedOutput (lines : List String) : String :=
  String.intercalate "\n" ((lines.map rstrip).filter (fun l => l != ""))

/-- The `try` block of `run_command`: spawn the process, consume stdout
line-by-line until EOF (this phase is *not* bounded by the timeout), then
`process.wait(timeout=timeout)` — which raises `TimeoutExpired` exactly when
the process takes more than `timeout` seconds *after the read loop finished*
to exit. -/
def run_command_body (b : SpawnOutcome) (timeout : Nat) :
    Except PyExn (Int × String) :=
  match b with
  | .launchFailure msg => .error (.other msg)
  | .runs p =>
    if timeout < p.exitDelay then .error .timeoutExpired
    else .ok (p.exitCode, capturedOutput p.rawLines)

/-- Model of `CloudPipeline.run_command`: the `try`/`except` wrapper.
`TimeoutExpired` is caught, the process killed, and `(1, "TIMEOUT")`
returned; any other exception `e` is caught and `(1, str(e))` returned. -/
def run_command (b : SpawnOutcome) (timeout : Nat) : Int × String :=
  match run_command_body b timeout with
  | .ok r => r
  | .error .timeoutExpired => (1, "TIMEOUT")
  | .error (.other msg) => (1, msg)

/-! ### Preprocess stage (`CloudPipeline.preprocess_company_folder`) -/

/-- Embedding of `Path.with_suffix('.json')` applied to a `*.csv` file name. -/
def jsonName (csvName : String) : String :=
  String.mk (csvName.data.take (csvName.data.length - 4)) ++ ".json"

/-- Model of `CloudPipeline.preprocess_company_folder`: for every `*.csv` file in the
company data directory run one CSV-to-JSON conversion; `conv c = some j`
models a successful `pd.read_csv` + `to_json` (producing the `.json` file),
`conv c = none` models the conversion raising (the `except` arm only logs,
so that file is skipped and the loop moves on).  Returns the list of
produced JSON files and the stage's return value, which is always `True`. -/
def preprocess_company_folder (csvs : List String)
    (conv : String → Option String) : List String × Bool :=
  (csvs.filterMap (fun c => (conv c).map (fun _ => jsonName c)), true)

/-! ### Part A stage (`CloudPipeline.run_part_a`) -/

/-- Model of `CloudPipeline.run_part_a` (success evaluation): `exitCode` is the
result of running `part_a/minimal_dr_part_a.py`; a nonzero exit fails, and a
zero exit additionally requires `get_latest_part_a_draft` to resolve to an
existing draft (paths resolved by the storage layer exist by construction of
the directory model). -/
def run_part_a (exitCode : Int) (slug : String) (dir : List MFile) : Bool :=
  if exitCode != 0 then false
  else
    match get_latest_part_a_draft slug dir with
    | some _ => true
    | none => false

/-! ### Part B stage (`CloudPipeline.run_part_b`) -/

/-- The transient-failure detector of `run_part_b`:
`"Error code: 500" in output and "server_error" in output`. -/
def transient_server_error (out : String) : Bool :=
  strContains "Error code: 500" out && strContains "server_error" out

/-- One pass of the `for attempt in range(max_retries + 1)` loop of
`run_part_b`, with `results n` the `(exit_code, output)` of the `n`-th
invocation of `part_b/minimal_dr_part_b.py`.  Accumulates the number of
attempts made and the total `time.sleep(180)` delay, and reports whether the
loop ended in success (`break`) or terminal failure (`return False`).
`fuel` is `max_retries + 1 - attempt`, the number of loop iterations left
(the loop body returns or recurses before fuel runs out). -/
def part_b_retry_aux (results : Nat → Int × String) (maxRetries : Nat) :
    Nat → Nat → Nat → Nat × Nat × Bool
  | attempt, delay, 0 => (attempt, delay, false)
  | attempt, delay, fuel + 1 =>
    let delay' := if 0 < attempt then delay + 180 else delay
    let r := results attempt
    if r.1 = 0 then (attempt + 1, delay', true)
    else if transient_server_error r.2 && decide (attempt < maxRetries) then
      part_b_retry_aux results maxRetries (attempt + 1) delay' fuel
    else if attempt = maxRetries then (attempt + 1, delay', false)
    else part_b_retry_aux results maxRetries (attempt + 1) delay' fuel

/-- The Part B retry loop with its hard-coded `max_retries = 2`: returns
`(attempts made, total delay seconds, success)`. -/
def part_b_retry (results : Nat → Int × String) : Nat × Nat × Bool :=
  part_b_retry_aux results 2 0 0 3

/-- Environment of the Part B stage: the per-attempt results of the retry
loop, the exit code of `usecases_apicalls.py`, the
`report_with_processed_use_cases_*.md` candidates found for enhancement,
and the exit code of `main2_refactored.py`. -/
structure PartBEnv where
  results : Nat → Int × String
  usecasesExit : Int
  enhanceCandidates : List MFile
  enhanceExit : Int

/-- Model of `CloudPipeline.run_part_b`: the retry loop, then use-case processing,
then (when a candidate report exists) enhancement.  Also returns the step
events emitted, encoded in tenths (60 = step 6, 65 = step 6.5,
67 = step 6.7). -/
def run_part_b (e : PartBEnv) : Bool × List Nat :=
  let r := part_b_retry e.results
  if r.2.2 = false then (false, [60])
  else if e.usecasesExit != 0 then (false, [60, 65])
  else if e.enhanceCandidates.isEmpty then (true, [60, 65, 67])
  else if e.enhanceExit != 0 then (false, [60, 65, 67])
  else (true, [60, 65, 67])

/-! ### Finalize stage (`CloudPipeline.finalize_report`) -/

/-- The candidate pool of `finalize_report`: the three
`final_candidates.extend(...)` glob calls, concatenated in source order. -/
def finalize_candidates (dir : List MFile) : List MFile :=
  dir.filter (fun f => globMatch "final_dual_model_report_" ".md" f.name)
    ++ dir.filter
      (fun f => globMatch "final_responses_patched_report_" ".md" f.name)
    ++ dir.filter
      (fun f => globMatch "final_consolidated_report_" ".md" f.name)

/-- Embedding of `latest_report.read_text(encoding='utf-8')`: the final
directory's report candidates are text files. -/
def readText (c : FContent) : String :=
  match c with
  | .text s => s
  | .vjson _ _ _ _ => ""

/-- The selection `finalize_report` actually performs: sort the pooled
candidates by mtime descending and take `final_candidates[0]`. -/
def finalize_select_code (dir : List MFile) : Option MFile :=
  (sortByMtimeDesc (finalize_candidates dir)).head?

/-- Written from the spec's words, for comparison with
`finalize_select_code`: "the first-priority convention is checked before
falling back to alternates, and within a convention the newest by
modification time wins". -/
def finalize_select_spec (dir : List MFile) : Option MFile :=
  match (sortByMtimeDesc (dir.filter
      (fun f => globMatch "final_dual_model_report_" ".md" f.name))).head? with
  | some f => some f
  | none =>
    match (sortByMtimeDesc (dir.filter
        (fun f =>
          globMatch "final_responses_patched_report_" ".md" f.name))).head? with
    | some f => some f
    | none =>
      (sortByMtimeDesc (dir.filter
        (fun f => globMatch "final_consolidated_report_" ".md" f.name))).head?

/-- Model of `CloudPipeline.finalize_report`: pick the newest pooled candidate, read
its text, copy it into the canonical slot via
`CloudStorage.save_final_report`, then attempt the best-effort Google Drive
upload (whose boolean result is ignored).  Returns the reported final path
(`None` when no candidate exists), the updated final directory, and the step
events emitted (90 = step 9; 80 = step 8, logged inside
`upload_final_report_to_gdrive`, which runs whether or not the upload then
succeeds). -/
def finalize_report (slug ts : String) (mtime : Nat) (dirPath : String)
    (dir : List MFile) (_gdriveOk : Bool) :
    Option String × List MFile × List Nat :=
  match finalize_select_code dir with
  | none => (none, dir, [90])
  | some latest =>
    let saved := save_final_report slug ts mtime (readText latest.content)
      dirPath dir
    (some saved.2, saved.1, [90, 80])

/-! ### The sequencer (`CloudPipeline.run`) -/

/-- Environment of one whole pipeline run: the outcomes of every external
interaction the sequencer performs, in stage order.  `vectorUploadId` is the
value returned by `upload_to_vector_store()` (that wrapper returns `None`
whenever its helper command exits nonzero and no id can be recovered);
`mcpOk` is `start_mcp_server`'s result; `quotesExit`, `partAExit`,
`consolidationExit` are the exit codes of the respective stage commands. -/
structure RunEnv where
  csvFiles : List String
  convOutcome : String → Option String
  vectorUploadId : Option String
  mcpOk : Bool
  quotesExit : Int
  partAExit : Int
  partADir : List MFile
  partB : PartBEnv
  consolidationExit : Int
  finalizeTs : String
  finalizeMtime : Nat
  finalDirPath : String
  finalDir : List MFile
  gdriveOk : Bool

/-- Result of `CloudPipeline.run`: the boolean outcome, the step events
emitted (in tenths: 10 = step 1, ..., 65 = step 6.5, ...), and the run's
`vector_store_id` binding. -/
structure RunResult where
  success : Bool
  events : List Nat
  vectorRef : Option String
deriving DecidableEq, Repr

/-- Model of `CloudPipeline.run`: the linear stage sequence with its early
`return False` exits.  Step events are those the stage functions log
(`logger.step`): 1 preprocess, 2 vector upload, 3 MCP server, 4 quotes
extraction, 5 Part A, 6/6.5/6.7 Part B, 7 consolidation, 9 finalize,
8 Drive upload. -/
def run (slug : String) (env : RunEnv) : RunResult :=
  let pre := preprocess_company_folder env.csvFiles env.convOutcome
  if pre.2 = false then ⟨false, [10], none⟩
  else
    let vid := env.vectorUploadId
    if env.mcpOk = false then ⟨false, [10, 20, 30], vid⟩
    else if env.quotesExit != 0 then ⟨false, [10, 20, 30, 40], vid⟩
    else if run_part_a env.partAExit slug env.partADir = false then
      ⟨false, [10, 20, 30, 40, 50], vid⟩
    else
      let pb := run_part_b env.partB
      if pb.1 = false then ⟨false, [10, 20, 30, 40, 50] ++ pb.2, vid⟩
      else if env.consolidationExit != 0 then
        ⟨false, [10, 20, 30, 40, 50] ++ pb.2 ++ [70], vid⟩
      else
        let fin := finalize_report slug env.finalizeTs env.finalizeMtime
          env.finalDirPath env.finalDir env.gdriveOk
        match fin.1 with
        | none => ⟨false, [10, 20, 30, 40, 50] ++ pb.2 ++ [70] ++ fin.2.2, vid⟩
        | some _ => ⟨true, [10, 20, 30, 40, 50] ++ pb.2 ++ [70] ++ fin.2.2, vid⟩

/-! ### General lemmas about the model -/

lemma str_data_append (a b : String) : (a ++ b).data = a.data ++ b.data := rfl

lemma sortByMtimeDesc_head_max {l : List MFile} {f : MFile}
    (h : (sortByMtimeDesc l).head? = some f) :
    f ∈ l ∧ ∀ g ∈ l, g.mtime ≤ f.mtime := by
  have hs : List.Sorted mtimeGe (sortByMtimeDesc l) :=
    List.sorted_insertionSort mtimeGe l
  rcases hsort : sortByMtimeDesc l with _ | ⟨a, rest⟩
  · rw [hsort] at h
    exact absurd h (by simp)
  · rw [hsort] at h hs
    have haf : a = f := by simpa using h
    subst haf
    constructor
    · have ha : a ∈ sortByMtimeDesc l := by
        rw [hsort]
        exact List.mem_cons_self a rest
      simpa [sortByMtimeDesc] using ha
    · intro g hg
      have hg2 : g ∈ a :: rest := by
        rw [← hsort]
        simpa [sortByMtimeDesc] using hg
      rcases List.mem_cons.1 hg2 with rfl | hg3
      · exact le_refl _
      · exact List.rel_of_sorted_cons hs g hg3

lemma sortByMtimeDesc_head_eq {l : List MFile} {f : MFile} (hf : f ∈ l)
    (hmax : ∀ g ∈ l, g ≠ f → g.mtime < f.mtime) :
    (sortByMtimeDesc l).head? = some f := by
  rcases hsort : sortByMtimeDesc l with _ | ⟨a, rest⟩
  · exfalso
    have hperm := List.perm_insertionSort mtimeGe l
    rw [show l.insertionSort mtimeGe = sortByMtimeDesc l from rfl, hsort] at hperm
    rw [hperm.symm.eq_nil] at hf
    exact absurd hf (by simp)
  · have ha := sortByMtimeDesc_head_max (l := l) (f := a) (by rw [hsort]; rfl)
    by_cases haf : a = f
    · simp [haf]
    · exfalso
      have h1 := hmax a ha.1 haf
      have h2 := ha.2 f hf
      omega

lemma sortByMtimeDesc_head_isSome {l : List MFile} (h : l ≠ []) :
    ∃ f, (sortByMtimeDesc l).head? = some f := by
  rcases hsort : sortByMtimeDesc l with _ | ⟨a, rest⟩
  · exfalso
    have hperm := List.perm_insertionSort mtimeGe l
    rw [show l.insertionSort mtimeGe = sortByMtimeDesc l from rfl, hsort] at hperm
    exact h hperm.symm.eq_nil
  · exact ⟨a, rfl⟩

lemma globMatch_append (pre mid suf : String) :
    globMatch pre suf (pre ++ mid ++ suf) = true := by
  simp only [globMatch, Bool.and_eq_true, decide_eq_true_eq]
  refine ⟨⟨?_, ?_⟩, ?_⟩
  · rw [str_data_append, str_data_append, List.append_assoc]
    exact List.prefix_append _ _
  · rw [str_data_append]
    exact List.suffix_append _ _
  · rw [String.length_append, String.length_append]
    omega

lemma not_md_suffix (l : List Char) :
    ¬ ((".md" : String).data <:+ l ++ (".ready" : String).data) := by
  intro h
  have h2 : (".md" : String).data.reverse <+:
      (l ++ (".ready" : String).data).reverse := List.reverse_prefix.2 h
  rw [List.reverse_append] at h2
  rcases h2 with ⟨t, ht⟩
  rw [show ((".ready" : String).data).reverse = ['y', 'd', 'a', 'e', 'r', '.']
      from rfl,
    show ((".md" : String).data).reverse = ['d', 'm', '.'] from rfl] at ht
  simp only [List.cons_append, List.nil_append, List.cons.injEq] at ht
  exact absurd ht.1 (by decide)

lemma globMatch_md_ready (pre x ts : String) :
    globMatch pre ".md" (x ++ ts ++ ".ready") = false := by
  have hnot : ¬ ((".md" : String).data <:+ (x ++ ts ++ ".ready").data) := by
    rw [str_data_append]
    exact not_md_suffix _
  unfold globMatch
  rw [decide_eq_false hnot]
  simp

lemma affix_inj (P S : String) {ts ts' : String}
    (h : P ++ ts ++ S = P ++ ts' ++ S) : ts = ts' := by
  have hd := congrArg String.data h
  simp only [str_data_append] at hd
  exact String.ext (List.append_cancel_left (List.append_cancel_right hd))

lemma mdName_inj {slug ts ts' : String}
    (h : mdName slug ts = mdName slug ts') : ts = ts' :=
  affix_inj ("FINAL_REPORT_" ++ slug ++ "_") ".md" h

lemma readyName_inj {slug ts ts' : String}
    (h : readyName slug ts = readyName slug ts') : ts = ts' :=
  affix_inj ("FINAL_REPORT_" ++ slug ++ "_") ".ready" h

lemma append_md_ne_append_ready (a b : String) : a ++ ".md" ≠ b ++ ".ready" := by
  intro h
  have hd := congrArg (fun s : String => s.data.reverse) h
  simp only [str_data_append, List.reverse_append] at hd
  rw [show ((".md" : String).data).reverse = ['d', 'm', '.'] from rfl,
    show ((".ready" : String).data).reverse = ['y', 'd', 'a', 'e', 'r', '.']
      from rfl] at hd
  simp only [List.cons_append, List.nil_append, List.cons.injEq] at hd
  exact absurd hd.1 (by decide)

lemma mdName_ne_readyName (slug ts ts' : String) :
    mdName slug ts ≠ readyName slug ts' :=
  append_md_ne_append_ready ("FINAL_REPORT_" ++ slug ++ "_" ++ ts)
    ("FINAL_REPORT_" ++ slug ++ "_" ++ ts')

lemma mem_writeFile_self (dir : List MFile) (name : String) (m : Nat)
    (c : FContent) : (⟨name, m, c⟩ : MFile) ∈ writeFile dir name m c := by
  simp [writeFile]

lemma mem_writeFile_of_mem {dir : List MFile} {f : MFile} (hf : f ∈ dir)
    {name : String} (hne : f.name ≠ name) (m : Nat) (c : FContent) :
    f ∈ writeFile dir name m c := by
  simp [writeFile, List.mem_filter, hf, hne]

lemma mem_writeFile_cases {dir : List MFile} {f : MFile} {name : String}
    {m : Nat} {c : FContent} (h : f ∈ writeFile dir name m c) :
    (f ∈ dir ∧ f.name ≠ name) ∨ f = ⟨name, m, c⟩ := by
  rcases List.mem_append.1 h with h1 | h1
  · have h2 := List.mem_filter.1 h1
    exact Or.inl ⟨h2.1, by simpa using h2.2⟩
  · exact Or.inr (by simpa using h1)

lemma preprocess_snd (csvs : List String) (conv : String → Option String) :
    (preprocess_company_folder csvs conv).2 = true := rfl

lemma run_part_a_eq_false {ec : Int} {slug : String} {dir : List MFile}
    (h : ec ≠ 0 ∨ get_latest_part_a_draft slug dir = none) :
    run_part_a ec slug dir = false := by
  rcases h with h | h
  · simp [run_part_a, h]
  · rcases eq_or_ne ec 0 with rfl | hne
    · simp [run_part_a, h]
    · simp [run_part_a, hne]

lemma finalize_select_isSome {dir : List MFile}
    (h : finalize_candidates dir ≠ []) :
    ∃ f, finalize_select_code dir = some f :=
  sortByMtimeDesc_head_isSome h

/-! ### Claim C1 — Part B retry policy (corrected) -/

/-- Concrete attempt results for the C1 counterexample: the first attempt
exits nonzero with output that does not match the transient-failure
detector; every later attempt succeeds. -/
def c1Results : Nat → Int × String :=
  fun n => if n = 0 then (1, "ValueError: bad input") else (0, "")

/-- Claim C1 counterexample: the claim says a single nonzero-exit attempt
whose output does not match the detector yields exactly 1 attempt and an
immediate Failed result.  On the code, the retry loop re-attempts (after
the 180 s sleep) regardless of the detector — here the first attempt fails
without matching the detector, yet a second attempt runs (and succeeds):
2 attempts, 180 s of delay, stage success. -/
theorem C1_retry_counterexample :
    transient_server_error (c1Results 0).2 = false ∧ (c1Results 0).1 ≠ 0 ∧
      part_b_retry c1Results = (2, 180, true) ∧
      (part_b_retry c1Results).1 ≠ 1 :=
  ⟨by decide, by decide, by decide, by decide⟩

/-- Claim C1 (amended): with `maxRetries = 2`, any three consecutive
nonzero-exit attempts — whether or not their outputs match the
transient-failure detector — yield exactly 3 attempts, a 180-second delay
before each of the two re-attempts (360 s total), and a Failed stage
result; in particular three consecutive matching failures behave as the
claim states, but a non-matching failure is *not* terminal before the
retry budget is exhausted (the detector only affects logging). -/
theorem C1_retry_amended (results : Nat → Int × String)
    (h0 : (results 0).1 ≠ 0) (h1 : (results 1).1 ≠ 0)
    (h2 : (results 2).1 ≠ 0) :
    part_b_retry results = (3, 360, false) := by
  unfold part_b_retry
  simp [part_b_retry_aux, h0, h1, h2]

/-- Witness for C1 (amended): three attempts whose output does carry the
server-error signature. -/
theorem C1_retry_amended_witness :
    part_b_retry
      (fun _ => (1, "Error code: 500 - \x7b'error': 'server_error'\x7d")) =
      (3, 360, false) :=
  C1_retry_amended _ (by decide) (by decide) (by decide)

/-! ### Claim C3 — run_command timeout (corrected) -/

/-- A process that spends 100 s producing output, then exits immediately
after closing its stream. -/
def c3Proc : ProcBehavior := ⟨["working..."], 100, 0, 0⟩

/-- Claim C3 counterexample: the claim says every command whose execution
exceeds the configured timeout is killed and reported as
`(1, "TIMEOUT")`.  On the code the timeout is only applied to
`process.wait` *after* the output stream has reached EOF, so this process
runs 100 s against a 10 s timeout yet returns normally. -/
theorem C3_timeout_counterexample :
    10 < totalRuntime c3Proc ∧
      run_command (SpawnOutcome.runs c3Proc) 10 ≠ (1, "TIMEOUT") ∧
      run_command (SpawnOutcome.runs c3Proc) 10 = (0, "working...") :=
  ⟨by decide, by decide, by decide⟩

/-- Claim C3 (amended): the timeout bounds only the wait that follows the
end of the child's output: when the process takes longer than `timeout`
seconds after its stream reaches EOF to exit, it is killed and the result
is exit code 1 with output exactly `"TIMEOUT"`; otherwise the command's own
exit code and captured output are returned even when the total runtime
(output phase included) exceeded the configured timeout. -/
theorem C3_timeout_amended (p : ProcBehavior) (t : Nat) :
    (t < p.exitDelay →
      run_command (SpawnOutcome.runs p) t = (1, "TIMEOUT")) ∧
    (p.exitDelay ≤ t →
      run_command (SpawnOutcome.runs p) t =
        (p.exitCode, capturedOutput p.rawLines)) := by
  constructor
  · intro h
    simp [run_command, run_command_body, h]
  · intro h
    simp [run_command, run_command_body, Nat.not_lt.2 h]

/-- Witness for C3 (amended): a process exceeding the timeout after EOF is
reported as `TIMEOUT`; one that exceeds it only while producing output is
not. -/
theorem C3_timeout_amended_witness :
    run_command (SpawnOutcome.runs ⟨[], 0, 10, 0⟩) 5 = (1, "TIMEOUT") ∧
      run_command (SpawnOutcome.runs ⟨["ok"], 99, 0, 0⟩) 10 = (0, "ok") :=
  ⟨(C3_timeout_amended ⟨[], 0, 10, 0⟩ 5).1 (by decide),
    (C3_timeout_amended ⟨["ok"], 99, 0, 0⟩ 10).2 (by decide)⟩

/-! ### Claim C6 — Part A success requires exit 0 and artifact (confirmed) -/

/-- Claim C6: Part A success requires both a zero exit code and a resolvable
draft artifact — zero exit with no artifact fails, nonzero exit fails
regardless of any artifact, and zero exit with an artifact succeeds. -/
theorem C6_part_a_success_requires_artifact (ec : Int) (slug : String)
    (dir : List MFile) :
    (ec = 0 → get_latest_part_a_draft slug dir = none →
      run_part_a ec slug dir = false) ∧
    (ec ≠ 0 → run_part_a ec slug dir = false) ∧
    (ec = 0 → (get_latest_part_a_draft slug dir).isSome →
      run_part_a ec slug dir = true) := by
  refine ⟨?_, ?_, ?_⟩
  · rintro rfl h
    simp [run_part_a, h]
  · intro h
    simp [run_part_a, h]
  · rintro rfl h
    rcases ho : get_latest_part_a_draft slug dir with _ | f
    · rw [ho] at h
      simp at h
    · simp [run_part_a, ho]

/-- Witness for C6: a nonzero exit code fails even though a draft artifact
(the pointer file) is present. -/
theorem C6_part_a_success_requires_artifact_witness :
    run_part_a 2 "acme"
      [⟨"report_draft_latest_acme.md", 1, FContent.text "draft"⟩] = false :=
  (C6_part_a_success_requires_artifact 2 "acme"
    [⟨"report_draft_latest_acme.md", 1, FContent.text "draft"⟩]).2.1
    (by decide)

/-! ### Claim C7 — run_command never raises (confirmed) -/

/-- Claim C7: `run_command` always returns an (exit code, output) pair:
a launch failure with description `msg` is caught and returned as
`(1, msg)`, and every exception raised inside the body is caught and
mapped to an exit-code-1 result. -/
theorem C7_run_command_total (b : SpawnOutcome) (t : Nat) :
    (∀ msg, b = SpawnOutcome.launchFailure msg →
      run_command b t = (1, msg)) ∧
    (∀ e, run_command_body b t = Except.error e →
      (run_command b t).1 = 1) := by
  constructor
  · rintro msg rfl
    rfl
  · intro e he
    unfold run_command
    rw [he]
    cases e <;> rfl

/-- Witness for C7: a command that cannot be launched. -/
theorem C7_run_command_total_witness :
    run_command (SpawnOutcome.launchFailure "No such file or directory") 3600 =
      (1, "No such file or directory") :=
  (C7_run_command_total
    (SpawnOutcome.launchFailure "No such file or directory") 3600).1 _ rfl

/-! ### Claim C10 — preprocessing always succeeds (confirmed) -/

/-- Claim C10: `preprocess_company_folder` returns `True` for every state of
the company data directory and every pattern of per-file conversion
failures, and a file whose conversion succeeds is converted even when other
files' conversions raised. -/
theorem C10_preprocess_total (csvs : List String)
    (conv : String → Option String) :
    (preprocess_company_folder csvs conv).2 = true ∧
    ∀ c ∈ csvs, (conv c).isSome = true →
      jsonName c ∈ (preprocess_company_folder csvs conv).1 := by
  refine ⟨rfl, ?_⟩
  intro c hc hs
  rcases hj : conv c with _ | j
  · rw [hj] at hs
    simp at hs
  · simp only [preprocess_company_folder, List.mem_filterMap]
    exact ⟨c, hc, by rw [hj]; rfl⟩

/-- Witness for C10: the first file's conversion raises, the run still
reports success and the second file is still converted. -/
theorem C10_preprocess_total_witness :
    (preprocess_company_folder ["bad.csv", "good.csv"]
      (fun c => if c = "good.csv" then some "[]" else none)).2 = true ∧
    jsonName "good.csv" ∈
      (preprocess_company_folder ["bad.csv", "good.csv"]
        (fun c => if c = "good.csv" then some "[]" else none)).1 :=
  ⟨(C10_preprocess_total _ _).1,
    (C10_preprocess_total _ _).2 "good.csv" (by decide) (by decide)⟩

/-! ### Claim C2 — finalize-stage artifact selection (corrected) -/

/-- Final directory for the C2 counterexample: a first-priority-convention
report older than an alternate-convention report. -/
def c2DirCex : List MFile :=
  [⟨"final_dual_model_report_a.md", 10, .text "A"⟩,
   ⟨"final_consolidated_report_b.md", 20, .text "B"⟩]

/-- Claim C2 counterexample: the claim says the first-priority convention
(`final_dual_model_report_*.md`) is checked before the alternates.  The
code pools the three globs and sorts them together by mtime, so the newer
`final_consolidated_report_*.md` file wins over the present
first-priority file and its content `"B"` (not `"A"`) is what gets saved
into the canonical slot. -/
theorem C2_finalize_priority_counterexample :
    finalize_select_code c2DirCex =
      some ⟨"final_consolidated_report_b.md", 20, FContent.text "B"⟩ ∧
    finalize_select_spec c2DirCex =
      some ⟨"final_dual_model_report_a.md", 10, FContent.text "A"⟩ ∧
    finalize_select_code c2DirCex ≠ finalize_select_spec c2DirCex ∧
    (⟨mdName "acme" "ts0", 30, FContent.text "B"⟩ : MFile) ∈
      (finalize_report "acme" "ts0" 30 "/outputs/acme/final" c2DirCex
        true).2.1 :=
  ⟨by decide, by decide, by decide, by decide⟩

/-- Claim C2 (amended): the Finalize stage selects the newest candidate by
modification time across the three naming conventions *pooled together*
(no priority between conventions; on ties the stable sort keeps glob
order), and the selected file's content is copied byte-for-byte into the
canonical final-artifact slot by `save_final_report`. -/
theorem C2_finalize_select_amended (dir : List MFile) (f : MFile)
    (slug ts dirPath : String) (m : Nat) (g : Bool)
    (hsel : finalize_select_code dir = some f) :
    (f ∈ finalize_candidates dir ∧
      ∀ c ∈ finalize_candidates dir, c.mtime ≤ f.mtime) ∧
    (finalize_report slug ts m dirPath dir g).1 =
      some (dirPath ++ "/" ++ mdName slug ts) ∧
    (⟨mdName slug ts, m, FContent.text (readText f.content)⟩ : MFile) ∈
      (finalize_report slug ts m dirPath dir g).2.1 := by
  refine ⟨sortByMtimeDesc_head_max hsel, ?_, ?_⟩
  · unfold finalize_report
    rw [hsel]
    rfl
  · unfold finalize_report
    rw [hsel]
    exact mem_writeFile_of_mem
      (mem_writeFile_self dir (mdName slug ts) m
        (FContent.text (readText f.content)))
      (mdName_ne_readyName slug ts ts) m _

/-- Witness for C2 (amended), at a one-candidate directory. -/
theorem C2_finalize_select_amended_witness :
    ((⟨"final_dual_model_report_a.md", 10, FContent.text "A"⟩ : MFile) ∈
        finalize_candidates
          [⟨"final_dual_model_report_a.md", 10, FContent.text "A"⟩] ∧
      ∀ c ∈ finalize_candidates
          [⟨"final_dual_model_report_a.md", 10, FContent.text "A"⟩],
        c.mtime ≤
          (⟨"final_dual_model_report_a.md", 10,
            FContent.text "A"⟩ : MFile).mtime) ∧
    (finalize_report "acme" "t1" 30 "/out"
        [⟨"final_dual_model_report_a.md", 10, FContent.text "A"⟩] false).1 =
      some ("/out" ++ "/" ++ mdName "acme" "t1") ∧
    (⟨mdName "acme" "t1", 30,
        FContent.text (readText (FContent.text "A"))⟩ : MFile) ∈
      (finalize_report "acme" "t1" 30 "/out"
        [⟨"final_dual_model_report_a.md", 10, FContent.text "A"⟩]
        false).2.1 :=
  C2_finalize_select_amended
    [⟨"final_dual_model_report_a.md", 10, FContent.text "A"⟩]
    ⟨"final_dual_model_report_a.md", 10, FContent.text "A"⟩
    "acme" "t1" "/out" 30 false (by decide)

/-! ### Claim C9 — vector-store id round-trip (confirmed) -/

/-- Claim C9: saving a vector-store id and then, with no intervening saves
(the new file's modification time is newer than everything already in the
directory), querying the latest id returns exactly the saved string; and
on an empty directory, the query returns `None` rather than raising. -/
theorem C9_vector_id_roundtrip (companyName slug vsId ts : String) (m : Nat)
    (dir : List MFile) (hfresh : ∀ f ∈ dir, f.mtime < m) :
    get_latest_vector_store_id
        (save_vector_store_id companyName slug vsId ts m dir) = some vsId ∧
    get_latest_vector_store_id ([] : List MFile) = none := by
  constructor
  · have hglob : globMatch "vector_" ".json" (vecName ts) = true :=
      globMatch_append "vector_" ts ".json"
    have hmem :
        (⟨vecName ts, m, FContent.vjson vsId companyName slug ts⟩ : MFile) ∈
          save_vector_store_id companyName slug vsId ts m dir :=
      mem_writeFile_self dir (vecName ts) m _
    have hhead : (sortByMtimeDesc
        ((save_vector_store_id companyName slug vsId ts m dir).filter
          (fun f => globMatch "vector_" ".json" f.name))).head? =
        some ⟨vecName ts, m, FContent.vjson vsId companyName slug ts⟩ := by
      apply sortByMtimeDesc_head_eq
      · exact List.mem_filter.2 ⟨hmem, hglob⟩
      · intro g hg hne
        have hg2 := List.mem_filter.1 hg
        rcases mem_writeFile_cases hg2.1 with ⟨hgd, _⟩ | rfl
        · exact hfresh g hgd
        · exact absurd rfl hne
    unfold get_latest_vector_store_id
    rw [hhead]
  · rfl

/-- Witness for C9: round-trip through an empty directory. -/
theorem C9_vector_id_roundtrip_witness :
    get_latest_vector_store_id
        (save_vector_store_id "Acme Corp" "acme_corp" "vs_abc123"
          "20240101_000000" 5 []) = some "vs_abc123" ∧
    get_latest_vector_store_id ([] : List MFile) = none :=
  C9_vector_id_roundtrip "Acme Corp" "acme_corp" "vs_abc123"
    "20240101_000000" 5 [] (by simp)

/-! ### Claim C5 — the run halts at a Part A failure (confirmed) -/

/-- Claim C5: when the Part A stage fails (nonzero exit code, or zero exit
code but no resolvable draft artifact), the run returns Failed having
emitted exactly the step events of stages 1–5: Part B (steps 6/6.5/6.7),
consolidation (7), Drive upload (8) and finalize (9) are never invoked and
none of their step events appear. -/
theorem C5_halt_at_part_a (slug : String) (env : RunEnv)
    (hm : env.mcpOk = true) (hq : env.quotesExit = 0)
    (ha : env.partAExit ≠ 0 ∨ get_latest_part_a_draft slug env.partADir = none) :
    run slug env = ⟨false, [10, 20, 30, 40, 50], env.vectorUploadId⟩ ∧
    ∀ e ∈ (run slug env).events, e ∉ [60, 65, 67, 70, 80, 90] := by
  have hpa := run_part_a_eq_false ha
  have hrun : run slug env = ⟨false, [10, 20, 30, 40, 50],
      env.vectorUploadId⟩ := by
    unfold run
    simp [preprocess_company_folder, hm, hq, hpa]
  refine ⟨hrun, ?_⟩
  rw [hrun]
  intro e he
  fin_cases he <;> decide

/-- Concrete environment for the C5 witness: Part A exits 1; everything
before it is healthy. -/
def c5Env : RunEnv :=
  { csvFiles := ["a.csv"]
    convOutcome := fun _ => some "[]"
    vectorUploadId := some "vs_1"
    mcpOk := true
    quotesExit := 0
    partAExit := 1
    partADir := []
    partB := ⟨fun _ => (0, ""), 0, [], 0⟩
    consolidationExit := 0
    finalizeTs := "t"
    finalizeMtime := 1
    finalDirPath := "/out"
    finalDir := []
    gdriveOk := true }

/-- Witness for C5. -/
theorem C5_halt_at_part_a_witness :
    run "acme" c5Env = ⟨false, [10, 20, 30, 40, 50], some "vs_1"⟩ ∧
    ∀ e ∈ (run "acme" c5Env).events, e ∉ [60, 65, 67, 70, 80, 90] :=
  C5_halt_at_part_a "acme" c5Env rfl rfl (Or.inl (by decide))

/-! ### Claim C8 — soft-fail stages never halt the run (confirmed) -/

/-- Claim C8: when the vector-store upload stage fails entirely (its result
is `None`) the run continues with an absent vector-store reference and can
still end with Succeeded; and a failing (or unavailable) Google Drive
upload does not stop the finalize stage from returning the produced local
artifact, nor the run from reporting success (the theorem holds for every
value of `gdriveOk`, and the last conjunct evaluates finalization with the
upload failing outright). -/
theorem C8_soft_fail (slug : String) (env : RunEnv)
    (hv : env.vectorUploadId = none) (hm : env.mcpOk = true)
    (hq : env.quotesExit = 0)
    (ha : run_part_a env.partAExit slug env.partADir = true)
    (hb : (run_part_b env.partB).1 = true)
    (hc : env.consolidationExit = 0)
    (hf : finalize_candidates env.finalDir ≠ []) :
    (run slug env).success = true ∧ (run slug env).vectorRef = none ∧
    (finalize_report slug env.finalizeTs env.finalizeMtime env.finalDirPath
      env.finalDir false).1.isSome = true := by
  obtain ⟨f, hsel⟩ := finalize_select_isSome hf
  have hfin : ∀ g : Bool, (finalize_report slug env.finalizeTs
      env.finalizeMtime env.finalDirPath env.finalDir g).1 =
      some (env.finalDirPath ++ "/" ++ mdName slug env.finalizeTs) := by
    intro g
    unfold finalize_report
    rw [hsel]
    rfl
  have hrun : run slug env = ⟨true,
      [10, 20, 30, 40, 50] ++ (run_part_b env.partB).2 ++ [70] ++ [90, 80],
      env.vectorUploadId⟩ := by
    unfold run
    simp [preprocess_company_folder, hm, hq, ha, hb, hc, finalize_report,
      hsel]
  rw [hrun, hfin false]
  exact ⟨rfl, hv, rfl⟩

/-- Concrete environment for the C8 witness: the vector-store upload
failed (`None`), the Drive upload fails, every hard stage succeeds. -/
def c8Env : RunEnv :=
  { csvFiles := []
    convOutcome := fun _ => none
    vectorUploadId := none
    mcpOk := true
    quotesExit := 0
    partAExit := 0
    partADir := [⟨"report_draft_latest_acme.md", 1, .text "draft"⟩]
    partB := ⟨fun _ => (0, ""), 0, [], 0⟩
    consolidationExit := 0
    finalizeTs := "t"
    finalizeMtime := 9
    finalDirPath := "/out"
    finalDir := [⟨"final_dual_model_report_a.md", 5, .text "R"⟩]
    gdriveOk := false }

/-- Witness for C8. -/
theorem C8_soft_fail_witness :
    (run "acme" c8Env).success = true ∧
    (run "acme" c8Env).vectorRef = none ∧
    (finalize_report "acme" c8Env.finalizeTs c8Env.finalizeMtime
      c8Env.finalDirPath c8Env.finalDir false).1.isSome = true :=
  C8_soft_fail "acme" c8Env rfl rfl rfl (by decide) (by decide) rfl
    (by decide)

/-! ### Claim C4 — final-report versioning (corrected) -/

/-- The inputs of one `save_final_report` call: the formatted
`datetime.utcnow()` timestamp, the resulting file modification time, and
the content to save. -/
structure FinalSave where
  ts : String
  mtime : Nat
  content : String
deriving DecidableEq, Repr

/-- The artifact file a given save writes. -/
def finalArtifact (slug : String) (s : FinalSave) : MFile :=
  ⟨mdName slug s.ts, s.mtime, .text s.content⟩

/-- The ready-signal file a given save writes: its content is the artifact
path followed by a newline. -/
def finalReadySignal (slug dirPath : String) (s : FinalSave) : MFile :=
  ⟨readyName slug s.ts, s.mtime,
    .text (dirPath ++ "/" ++ mdName slug s.ts ++ "\n")⟩

/-- A sequence of `save_final_report` calls applied left to right. -/
def saveFinalList (slug dirPath : String) (dir : List MFile)
    (saves : List FinalSave) : List MFile :=
  saves.foldl
    (fun d s => (save_final_report slug s.ts s.mtime s.content dirPath d).1)
    dir

lemma save_final_report_fst (slug ts : String) (m : Nat)
    (content dirPath : String) (dir : List MFile) :
    (save_final_report slug ts m content dirPath dir).1 =
      writeFile (writeFile dir (mdName slug ts) m (.text content))
        (readyName slug ts) m
        (.text (dirPath ++ "/" ++ mdName slug ts ++ "\n")) := rfl

lemma save_final_mem_artifact (slug ts : String) (m : Nat)
    (c dp : String) (dir : List MFile) :
    (⟨mdName slug ts, m, FContent.text c⟩ : MFile) ∈
      (save_final_report slug ts m c dp dir).1 := by
  rw [save_final_report_fst]
  exact mem_writeFile_of_mem (mem_writeFile_self dir (mdName slug ts) m _)
    (mdName_ne_readyName slug ts ts) m _

lemma save_final_mem_ready (slug ts : String) (m : Nat) (c dp : String)
    (dir : List MFile) :
    (⟨readyName slug ts, m,
        FContent.text (dp ++ "/" ++ mdName slug ts ++ "\n")⟩ : MFile) ∈
      (save_final_report slug ts m c dp dir).1 := by
  rw [save_final_report_fst]
  exact mem_writeFile_self _ _ _ _

lemma save_final_preserves {dir : List MFile} {f : MFile} (hf : f ∈ dir)
    {slug ts : String} (h1 : f.name ≠ mdName slug ts)
    (h2 : f.name ≠ readyName slug ts) (m : Nat) (c dp : String) :
    f ∈ (save_final_report slug ts m c dp dir).1 := by
  rw [save_final_report_fst]
  exact mem_writeFile_of_mem (mem_writeFile_of_mem hf h1 m _) h2 m _

lemma save_final_mem_cases {dir : List MFile} {f : MFile}
    {slug ts : String} {m : Nat} {c dp : String}
    (h : f ∈ (save_final_report slug ts m c dp dir).1) :
    f ∈ dir ∨ f = ⟨mdName slug ts, m, FContent.text c⟩ ∨
      f = ⟨readyName slug ts, m,
        FContent.text (dp ++ "/" ++ mdName slug ts ++ "\n")⟩ := by
  rw [save_final_report_fst] at h
  rcases mem_writeFile_cases h with ⟨h1, _⟩ | rfl
  · rcases mem_writeFile_cases h1 with ⟨h2, _⟩ | rfl
    · exact Or.inl h2
    · exact Or.inr (Or.inl rfl)
  · exact Or.inr (Or.inr rfl)

lemma saveFinalList_cons (slug dp : String) (dir : List MFile)
    (s : FinalSave) (rest : List FinalSave) :
    saveFinalList slug dp dir (s :: rest) =
      saveFinalList slug dp
        ((save_final_report slug s.ts s.mtime s.content dp dir).1) rest := rfl

lemma saveFinalList_preserves (slug dp : String) :
    ∀ (saves : List FinalSave) (dir : List MFile) {f : MFile}, f ∈ dir →
      (∀ s ∈ saves,
        f.name ≠ mdName slug s.ts ∧ f.name ≠ readyName slug s.ts) →
      f ∈ saveFinalList slug dp dir saves := by
  intro saves
  induction saves with
  | nil =>
    intro dir f hf _
    exact hf
  | cons a rest ih =>
    intro dir f hf h
    rw [saveFinalList_cons]
    exact ih _
      (save_final_preserves hf (h a (List.mem_cons_self a rest)).1
        (h a (List.mem_cons_self a rest)).2 a.mtime a.content dp)
      (fun s hs => h s (List.mem_cons_of_mem a hs))

lemma saveFinalList_mem_saves (slug dp : String) :
    ∀ (saves : List FinalSave) (dir : List MFile),
      saves.Pairwise (fun a b => a.mtime < b.mtime ∧ a.ts ≠ b.ts) →
      ∀ s ∈ saves,
        finalArtifact slug s ∈ saveFinalList slug dp dir saves ∧
        finalReadySignal slug dp s ∈ saveFinalList slug dp dir saves := by
  intro saves
  induction saves with
  | nil =>
    intro dir _ s hs
    exact absurd hs (by simp)
  | cons a rest ih =>
    intro dir hp s hs
    have hp' := List.pairwise_cons.1 hp
    rcases List.mem_cons.1 hs with rfl | hs'
    · rw [saveFinalList_cons]
      constructor
      · apply saveFinalList_preserves slug dp rest _
          (save_final_mem_artifact slug s.ts s.mtime s.content dp dir)
        intro r hr
        refine ⟨fun hEq => (hp'.1 r hr).2 (mdName_inj hEq), ?_⟩
        exact mdName_ne_readyName slug s.ts r.ts
      · apply saveFinalList_preserves slug dp rest _
          (save_final_mem_ready slug s.ts s.mtime s.content dp dir)
        intro r hr
        refine ⟨Ne.symm (mdName_ne_readyName slug r.ts s.ts), ?_⟩
        exact fun hEq => (hp'.1 r hr).2 (readyName_inj hEq)
    · rw [saveFinalList_cons]
      exact ih _ hp'.2 s hs'

lemma saveFinalList_mem_cases (slug dp : String) :
    ∀ (saves : List FinalSave) (dir : List MFile) {f : MFile},
      f ∈ saveFinalList slug dp dir saves →
      f ∈ dir ∨ ∃ s ∈ saves,
        f = finalArtifact slug s ∨ f = finalReadySignal slug dp s := by
  intro saves
  induction saves with
  | nil =>
    intro dir f hf
    exact Or.inl hf
  | cons a rest ih =>
    intro dir f hf
    rw [saveFinalList_cons] at hf
    rcases ih _ hf with h | ⟨s, hs, h⟩
    · rcases save_final_mem_cases h with h1 | h1
      · exact Or.inl h1
      · exact Or.inr ⟨a, List.mem_cons_self a rest, h1⟩
    · exact Or.inr ⟨s, List.mem_cons_of_mem a hs, h⟩

lemma finalSaves_getLast_max :
    ∀ (l : List FinalSave),
      l.Pairwise (fun a b => a.mtime < b.mtime ∧ a.ts ≠ b.ts) →
      ∀ s, l.getLast? = some s → ∀ x ∈ l, x = s ∨ x.mtime < s.mtime := by
  intro l
  induction l with
  | nil =>
    intro _ s hs
    simp at hs
  | cons a rest ih =>
    intro hp s hs x hx
    have hp' := List.pairwise_cons.1 hp
    rcases rest with _ | ⟨b, rest'⟩
    · rw [List.getLast?_singleton] at hs
      have has : a = s := by simpa using hs
      rcases List.mem_cons.1 hx with rfl | hx'
      · exact Or.inl has
      · exact absurd hx' (by simp)
    · rw [List.getLast?_cons_cons] at hs
      rcases List.mem_cons.1 hx with rfl | hx'
      · exact Or.inr (hp'.1 s (List.mem_of_mem_getLast? hs)).1
      · exact ih hp'.2 s hs x hx'

lemma mdName_glob (slug ts : String) :
    globMatch ("FINAL_REPORT_" ++ slug ++ "_") ".md" (mdName slug ts) =
      true :=
  globMatch_append ("FINAL_REPORT_" ++ slug ++ "_") ts ".md"

lemma readyName_not_glob (slug ts : String) :
    globMatch ("FINAL_REPORT_" ++ slug ++ "_") ".md" (readyName slug ts) =
      false :=
  globMatch_md_ready ("FINAL_REPORT_" ++ slug ++ "_")
    ("FINAL_REPORT_" ++ slug ++ "_") ts

/-- Claim C4 counterexample: the claim says repeated saves never overwrite
a previously written artifact.  The artifact file name embeds a
second-resolution timestamp and the file is opened in `"w"` mode, so two
saves in the same wall-clock second (equal timestamp strings) reuse the
same name: the second save destroys the first artifact, and only one
artifact file remains after the two saves. -/
theorem C4_versioning_counterexample :
    finalArtifact "acme" ⟨"20240101_000000", 10, "first"⟩ ∉
      saveFinalList "acme" "/out" []
        [⟨"20240101_000000", 10, "first"⟩,
         ⟨"20240101_000000", 11, "second"⟩] ∧
    ((saveFinalList "acme" "/out" []
        [⟨"20240101_000000", 10, "first"⟩,
         ⟨"20240101_000000", 11, "second"⟩]).filter
      (fun f =>
        globMatch ("FINAL_REPORT_" ++ "acme" ++ "_") ".md" f.name)).length =
      1 :=
  ⟨by decide, by decide⟩

/-- Claim C4 (amended): provided the saves carry strictly increasing
modification times and pairwise distinct timestamp strings (distinct
wall-clock seconds — the situation the claim implicitly assumes), repeated
saves never overwrite a prior artifact, every save also writes its
ready-signal file whose content references the artifact path, and after N
saves the latest-final-report query returns the Nth artifact with content
byte-for-byte equal to the Nth save's content.  Two saves within the same
second (equal timestamp strings) do overwrite — see the counterexample. -/
theorem C4_versioning_amended (slug dirPath : String)
    (saves : List FinalSave)
    (hp : saves.Pairwise (fun a b => a.mtime < b.mtime ∧ a.ts ≠ b.ts)) :
    (∀ s ∈ saves,
      finalArtifact slug s ∈ saveFinalList slug dirPath [] saves ∧
      finalReadySignal slug dirPath s ∈
        saveFinalList slug dirPath [] saves) ∧
    (∀ s, saves.getLast? = some s →
      get_latest_final_report slug (saveFinalList slug dirPath [] saves) =
        some (finalArtifact slug s)) := by
  refine ⟨saveFinalList_mem_saves slug dirPath saves [] hp, ?_⟩
  intro s hlast
  have hsmem : s ∈ saves := List.mem_of_mem_getLast? hlast
  have hart : finalArtifact slug s ∈ saveFinalList slug dirPath [] saves :=
    (saveFinalList_mem_saves slug dirPath saves [] hp s hsmem).1
  unfold get_latest_final_report
  apply sortByMtimeDesc_head_eq
  · exact List.mem_filter.2 ⟨hart, mdName_glob slug s.ts⟩
  · intro g hg hne
    have hg2 := List.mem_filter.1 hg
    rcases saveFinalList_mem_cases slug dirPath saves [] hg2.1
      with h | ⟨s', hs', h⟩
    · exact absurd h (by simp)
    · rcases h with rfl | rfl
      · rcases finalSaves_getLast_max saves hp s hlast s' hs' with rfl | hlt
        · exact absurd rfl hne
        · exact hlt
      · exact absurd hg2.2
          (by simp [finalReadySignal, readyName_not_glob])

/-- Witness for C4 (amended): two saves one second apart. -/
theorem C4_versioning_amended_witness :
    (finalArtifact "acme" ⟨"t1", 10, "one"⟩ ∈
        saveFinalList "acme" "/out" []
          [⟨"t1", 10, "one"⟩, ⟨"t2", 20, "two"⟩] ∧
      finalReadySignal "acme" "/out" ⟨"t1", 10, "one"⟩ ∈
        saveFinalList "acme" "/out" []
          [⟨"t1", 10, "one"⟩, ⟨"t2", 20, "two"⟩]) ∧
    get_latest_final_report "acme"
        (saveFinalList "acme" "/out" []
          [⟨"t1", 10, "one"⟩, ⟨"t2", 20, "two"⟩]) =
      some (finalArtifact "acme" ⟨"t2", 20, "two"⟩) :=
  ⟨(C4_versioning_amended "acme" "/out"
      [⟨"t1", 10, "one"⟩, ⟨"t2", 20, "two"⟩] (by decide)).1
      ⟨"t1", 10, "one"⟩ (by decide),
    (C4_versioning_amended "acme" "/out"
      [⟨"t1", 10, "one"⟩, ⟨"t2", 20, "two"⟩] (by decide)).2
      ⟨"t2", 20, "two"⟩ (by decide)⟩

end Pipeline
